import Mathlib

/-!
# Verification of the codex-orchestrator core

A shallow embedding of the orchestration core of the `codex-orchestrator`
repository (Python), together with theorems settling the specification
claims about it.

Embedded components (file names refer to the repository's `src/` tree):
* `core/models.py` — `BotSession`, `BotSession.to_dict` / `from_dict`,
  `_parse_string_map`;
* `core/session_manager.py` — `SessionManager.load` / `save` /
  `_new_session`;
* `core/command_router.py` — `CommandRouter.route`;
* `core/orchestrator.py` — the lock-held prefix of
  `BotOrchestrator._handle_workflow_message` and the post-run merge;
* `workflows/plan_agent_workflow.py` — `PlanWorkflow.run` and its helpers
  (`_sanitize_history`, `_clip_feedback`, `_clip_planner_output`,
  `_compose_execution_input`, `_detect_artifacts`, `_build_user_output`,
  `LlmReviewerAgent._parse_review`, `_looks_like_prompt_echo`).

Python dynamic values are modelled by the `Json` type; machine-level
details that do not affect the claims (Unicode case folding beyond ASCII,
float JSON numbers, string `repr` escaping) are simplified and noted at
the definition site.  Agent calls performed through the external executor
are modelled as abstract functions supplied in a `PlanAgents` environment:
each stage call is a pure function of exactly the arguments the Python
call site passes (prompt inputs, history, round index), and workspace
snapshots are an abstract stream indexed by the number of snapshot calls
made so far.
-/

namespace CodexOrchestrator

/-! ## Python value model -/

/-- Model of a Python/JSON value as stored in session records and passed
through `dict`-typed Python code.  JSON numbers are modelled as integers
(the orchestrator only stores integral numbers); floats are out of scope. -/
inductive Json where
  | null : Json
  | bool (b : Bool) : Json
  | num (n : Int) : Json
  | str (s : String) : Json
  | arr (elems : List Json) : Json
  | obj (fields : List (String × Json)) : Json

/-- Characters Python `str.strip()` / `str.split()` treat as whitespace
(ASCII portion). -/
def isPySpace (c : Char) : Bool :=
  c = ' ' || c = '\t' || c = '\n' || c = '\r' || c = '\x0b' || c = '\x0c'

/-- Python `str.strip()`: drop leading and trailing whitespace. -/
def pyStrip (s : String) : String :=
  String.mk (((s.data.dropWhile isPySpace).reverse.dropWhile isPySpace).reverse)

/-- Python `str.lower()` (ASCII case folding; the strings compared in the
embedded code are ASCII). -/
def pyLower (s : String) : String :=
  String.mk (s.data.map Char.toLower)

/-- Python `str.startswith(p)` (character-level prefix test). -/
def pyStartsWith (s p : String) : Bool :=
  decide (p.data <+: s.data)

/-- Drop the leading character of a token (used to state which command
name a reserved token such as `"/start"` carries). -/
def stripSlash (s : String) : String :=
  String.mk (s.data.drop 1)

/-- Accumulating splitter for `pySplit`: `acc` holds the current token's
characters in reverse. -/
def pySplitAux (p : Char → Bool) : List Char → List Char → List String
  | [], acc => if acc = [] then [] else [String.mk acc.reverse]
  | c :: cs, acc =>
      if p c then
        if acc = [] then pySplitAux p cs []
        else String.mk acc.reverse :: pySplitAux p cs []
      else pySplitAux p cs (c :: acc)

/-- Python `str.split()` with no separator: split on whitespace runs,
discarding empty pieces. -/
def pySplit (s : String) : List String :=
  pySplitAux isPySpace s.data []

/-- Python truthiness of a JSON value. -/
def pyTruthy : Json → Bool
  | .null => false
  | .bool b => b
  | .num n => n ≠ 0
  | .str s => s ≠ ""
  | .arr elems => !elems.isEmpty
  | .obj fields => !fields.isEmpty

mutual

/-- Python `repr()` of a JSON value.  String escaping inside containers is
simplified to plain single quotes; no claim's theorem evaluates this on
strings needing escapes. -/
def pyRepr : Json → String
  | .null => "None"
  | .bool b => cond b "True" "False"
  | .num n => toString n
  | .str s => "'" ++ s ++ "'"
  | .arr elems => "[" ++ pyReprList elems ++ "]"
  | .obj fields => "\x7b" ++ pyReprObj fields ++ "\x7d"

/-- `repr` of the comma-separated elements of a Python list. -/
def pyReprList : List Json → String
  | [] => ""
  | [j] => pyRepr j
  | j :: rest => pyRepr j ++ ", " ++ pyReprList rest

/-- `repr` of the comma-separated entries of a Python dict. -/
def pyReprObj : List (String × Json) → String
  | [] => ""
  | [(k, v)] => "'" ++ k ++ "': " ++ pyRepr v
  | (k, v) :: rest => "'" ++ k ++ "': " ++ pyRepr v ++ ", " ++ pyReprObj rest

end

/-- Python `str()` of a JSON value: identity on strings, `repr` otherwise
(matching CPython for the value shapes in scope). -/
def pyStr : Json → String
  | .str s => s
  | j => pyRepr j

/-- Python `dict.get(key)` on an association list (keys are unique in every
dict the embedded code builds, so first-match lookup coincides with
Python's). -/
def dictGet (key : String) : List (String × Json) → Option Json
  | [] => none
  | (k, v) :: rest => if k = key then some v else dictGet key rest

/-- Python `dict.get(key, default)`. -/
def dictGetD (key : String) (default : Json) (kvs : List (String × Json)) : Json :=
  (dictGet key kvs).getD default

/-- Python `d[key] = value`: replace in place if the key is present,
otherwise append, preserving insertion order. -/
def dictInsert {α : Type} : List (String × α) → String → α → List (String × α)
  | [], key, val => [(key, val)]
  | (k, v) :: rest, key, val =>
      if k = key then (key, val) :: rest else (k, v) :: dictInsert rest key val

/-- First-match lookup in a generic association list (used for workspace
snapshots, `dict.get`). -/
def assocGet {α : Type} (key : String) : List (String × α) → Option α
  | [] => none
  | (k, v) :: rest => if k = key then some v else assocGet key rest

/-- Python `int()` applied to a string: optional sign, digits with single
interior underscores, surrounding whitespace allowed. -/
def pyIntOfString (s : String) : Option Int :=
  let t := (pyStrip s).data
  let core : List Char → Option (List Char) := fun cs =>
    match cs with
    | '+' :: rest => some rest
    | '-' :: rest => some rest
    | rest => some rest
  match core t with
  | none => none
  | some digits =>
      let valid :=
        digits ≠ [] ∧
        (digits.head? ≠ some '_') ∧
        (digits.getLast? ≠ some '_') ∧
        digits.Chain' (fun a b => ¬(a = '_' ∧ b = '_')) ∧
        digits.all (fun c => c.isDigit || c = '_')
      if valid then
        let mag : Int := digits.foldl
          (fun acc c => if c = '_' then acc else acc * 10 + (c.toNat - '0'.toNat : Int)) 0
        some (if t.head? = some '-' then -mag else mag)
      else none

/-! ## `core/models.py`: `BotSession` and its serialization -/

/-- `core/models.py` `BotSession`.  Fields that Python's `from_dict` keeps
verbatim without type conversion (`last_error`, `last_run_latency_ms`) are
typed `Json`; the remaining fields carry the types the dataclass holds
after `from_dict`'s normalization. -/
structure BotSession where
  session_id : String
  chat_id : String
  user_id : String
  mode : String := "single"
  history : List Json := []
  run_lock : Bool := false
  last_error : Json := .null
  last_run_status : String := "idle"
  last_run_latency_ms : Json := .null
  last_review_round : Int := 0
  last_review_result : Option String := none
  profile_name : String := "default"
  profile_model : Option String := none
  profile_working_directory : Option String := none
  profile_agent_models : List (String × String) := []
  profile_agent_system_prompts : List (String × String) := []
  updated_at : String

/-- Encode a Python `str | None` as JSON. -/
def optStr : Option String → Json
  | none => .null
  | some s => .str s

/-- Encode a `dict[str, str]` as a JSON object. -/
def strMapToJson (m : List (String × String)) : List (String × Json) :=
  m.map (fun kv => (kv.1, Json.str kv.2))

/-- `BotSession.to_dict` (`core/models.py` lines 49-68): the exact key set
and order of the serialized record. -/
def BotSession.to_dict (s : BotSession) : List (String × Json) :=
  [ ("session_id", .str s.session_id)
  , ("chat_id", .str s.chat_id)
  , ("user_id", .str s.user_id)
  , ("mode", .str s.mode)
  , ("history", .arr s.history)
  , ("run_lock", .bool s.run_lock)
  , ("last_error", s.last_error)
  , ("last_run_status", .str s.last_run_status)
  , ("last_run_latency_ms", s.last_run_latency_ms)
  , ("last_review_round", .num s.last_review_round)
  , ("last_review_result", optStr s.last_review_result)
  , ("profile_name", .str s.profile_name)
  , ("profile_model", optStr s.profile_model)
  , ("profile_working_directory", optStr s.profile_working_directory)
  , ("profile_agent_models", .obj (strMapToJson s.profile_agent_models))
  , ("profile_agent_system_prompts", .obj (strMapToJson s.profile_agent_system_prompts))
  , ("updated_at", .str s.updated_at)
  ]

/-- The loop body of `_parse_string_map`: normalize one entry and insert
it, skipping empty keys, `None` values and values stripping to `""`. -/
def parseStringMapStep (acc : List (String × String)) (kv : String × Json) :
    List (String × String) :=
  let key := pyLower (pyStrip kv.1)
  if key = "" then acc
  else
    match kv.2 with
    | .null => acc
    | v =>
        let cleaned := pyStrip (pyStr v)
        if cleaned = "" then acc else dictInsert acc key cleaned

/-- `core/models.py` `_parse_string_map`: normalize an arbitrary value into
a `dict[str, str]` — non-dicts become `{}`. -/
def parseStringMap : Json → List (String × String)
  | .obj kvs => kvs.foldl parseStringMapStep []
  | _ => []

/-- Exceptions `BotSession.from_dict` can raise: `KeyError` from the three
required-key subscripts, `ValueError`/`TypeError` from `int(...)` on the
review-round field. -/
inductive PyErr where
  | keyError : PyErr
  | valueError : PyErr
  | typeError : PyErr
deriving DecidableEq

/-- Python `int(x)` on a JSON value (used on the truthy branch of
`int(payload.get("last_review_round", 0) or 0)`). -/
def pyInt : Json → Except PyErr Int
  | .num n => .ok n
  | .bool b => .ok (cond b 1 0)
  | .str s =>
      match pyIntOfString s with
      | some n => .ok n
      | none => .error .valueError
  | .null => .error .typeError
  | .arr _ => .error .typeError
  | .obj _ => .error .typeError

/-- `int(v or 0)` as applied to the review-round field. -/
def pyIntOr0 (v : Json) : Except PyErr Int :=
  if pyTruthy v then pyInt v else .ok 0

/-- The `mode` normalization of `from_dict` (`core/models.py` lines
72-74): anything but `"single"`/`"multi"` collapses to `"single"` — note
the tuple does *not* include `"plan"`, although the orchestrator stores
`mode = "plan"` (`core/orchestrator.py` line 140). -/
def fromMode (payload : List (String × Json)) : String :=
  match dictGetD "mode" (.str "single") payload with
  | .str m => if m = "single" ∨ m = "multi" then m else "single"
  | _ => "single"

/-- The `last_run_status` normalization (lines 76-78). -/
def fromStatus (payload : List (String × Json)) : String :=
  match dictGetD "last_run_status" (.str "idle") payload with
  | .str st => if st = "idle" ∨ st = "ok" ∨ st = "error" then st else "idle"
  | _ => "idle"

/-- The `last_review_result` normalization (lines 80-82). -/
def fromReviewResult (payload : List (String × Json)) : Option String :=
  match dictGetD "last_review_result" .null payload with
  | .str r =>
      if r = "approved" ∨ r = "needs_changes" ∨ r = "max_rounds_reached" then some r
      else none
  | _ => none

/-- The `history` normalization (lines 84-86): non-lists become `[]`. -/
def fromHistory (payload : List (String × Json)) : List Json :=
  match dictGetD "history" (.arr []) payload with
  | .arr items => items
  | _ => []

/-- The `profile_name` normalization (line 88):
`str(payload.get("profile_name", "default") or "default").strip() or
"default"`. -/
def fromProfileName (payload : List (String × Json)) : String :=
  let v := dictGetD "profile_name" (.str "default") payload
  let v := if pyTruthy v then v else .str "default"
  let cleaned := pyStrip (pyStr v)
  if cleaned = "" then "default" else cleaned

/-- The `profile_model` / `profile_working_directory` normalization (lines
89-94): `None` stays `None`, otherwise `str(value).strip() or None`. -/
def fromOptionalProfileStr (key : String) (payload : List (String × Json)) : Option String :=
  match dictGetD key .null payload with
  | .null => none
  | v => let cleaned := pyStrip (pyStr v); if cleaned = "" then none else some cleaned

/-- The `last_review_round` conversion (line 108):
`int(payload.get("last_review_round", 0) or 0)`. -/
def fromReviewRound (payload : List (String × Json)) : Except PyErr Int :=
  pyIntOr0 (dictGetD "last_review_round" (.num 0) payload)

/-- `BotSession.from_dict` (`core/models.py` lines 70-116).  `now` stands
for the `utc_now_iso()` default taken when `updated_at` is absent.
Failures follow the source's evaluation order: the three required-key
subscripts first, then the `int(...)` conversion. -/
def BotSession.from_dict (payload : List (String × Json)) (now : String) :
    Except PyErr BotSession :=
  match dictGet "session_id" payload with
  | none => .error .keyError
  | some sidV =>
    match dictGet "chat_id" payload with
    | none => .error .keyError
    | some cidV =>
      match dictGet "user_id" payload with
      | none => .error .keyError
      | some uidV =>
        match fromReviewRound payload with
        | .error e => .error e
        | .ok last_review_round =>
          .ok
            { session_id := pyStr sidV
            , chat_id := pyStr cidV
            , user_id := pyStr uidV
            , mode := fromMode payload
            , history := fromHistory payload
            , run_lock := pyTruthy (dictGetD "run_lock" (.bool false) payload)
            , last_error := dictGetD "last_error" .null payload
            , last_run_status := fromStatus payload
            , last_run_latency_ms := dictGetD "last_run_latency_ms" .null payload
            , last_review_round := last_review_round
            , last_review_result := fromReviewResult payload
            , profile_name := fromProfileName payload
            , profile_model := fromOptionalProfileStr "profile_model" payload
            , profile_working_directory := fromOptionalProfileStr "profile_working_directory" payload
            , profile_agent_models := parseStringMap (dictGetD "profile_agent_models" .null payload)
            , profile_agent_system_prompts :=
                parseStringMap (dictGetD "profile_agent_system_prompts" .null payload)
            , updated_at := pyStr (dictGetD "updated_at" (.str now) payload)
            }

/-! ## `core/session_manager.py`: load / save -/

/-- `SessionManager._new_session` (`core/session_manager.py` lines 28-36):
a freshly initialized session.  `now` is the dataclass's `utc_now_iso()`
default for `updated_at`. -/
def newSession (chat_id user_id : String) (now : String) : BotSession :=
  { session_id := "tg:" ++ chat_id ++ ":" ++ user_id
  , chat_id := chat_id
  , user_id := user_id
  , mode := "single"
  , history := []
  , run_lock := false
  , updated_at := now
  }

/-- The state of a session's stored record as `load` observes it:
`none` — the file does not exist; `some (.error ())` — the file exists but
reading or JSON-parsing it fails (`OSError` / `json.JSONDecodeError`);
`some (.ok payload)` — the file parses to the JSON object `payload`. -/
def StoredRecord : Type := Option (Except Unit (List (String × Json)))

/-- `SessionManager.load` (`core/session_manager.py` lines 55-70).
A missing file yields a fresh session; a read/parse failure or a
`KeyError`/`ValueError` from `from_dict` yields a fresh session with
`last_error = "session_load_failed"`; a successful parse yields the
decoded session with `run_lock` forced to `False` (line 65).  A
`TypeError` from `from_dict` is not in the `except` tuple and escapes. -/
def loadSession (stored : StoredRecord) (chat_id user_id : String) (now : String) :
    Except PyErr BotSession :=
  match stored with
  | none => .ok (newSession chat_id user_id now)
  | some (.error _) =>
      .ok { newSession chat_id user_id now with last_error := .str "session_load_failed" }
  | some (.ok payload) =>
      match BotSession.from_dict payload now with
      | .ok s => .ok { s with run_lock := false }
      | .error .keyError =>
          .ok { newSession chat_id user_id now with last_error := .str "session_load_failed" }
      | .error .valueError =>
          .ok { newSession chat_id user_id now with last_error := .str "session_load_failed" }
      | .error .typeError => .error .typeError

/-- `SessionManager.save` (`core/session_manager.py` lines 72-89), reduced
to the record it atomically writes: `session.touch()` stamps `updated_at`
with the current time, then `to_dict` is serialized. -/
def saveRecord (s : BotSession) (now : String) : List (String × Json) :=
  BotSession.to_dict { s with updated_at := now }

/-! ## `core/command_router.py` -/

/-- `core/models.py` `RouteResult` (kinds: `bot_command`, `codex_slash`,
`text`). -/
structure RouteResult where
  kind : String
  text : String
  command : Option String := none
  args : List String := []
deriving DecidableEq, Repr

/-- The command token of a leading-slash text: first whitespace-delimited
token, lower-cased, with everything from the first `@` on stripped
(`parts[0].lower().split("@", 1)[0]`). -/
def slashCommand (raw : String) : String :=
  let commandToken := pyLower ((pySplit raw).headD "")
  String.mk (commandToken.data.takeWhile (fun c => c ≠ '@'))

/-- The leading-slash branch of `CommandRouter.route`. -/
def routeSlash (raw : String) : RouteResult :=
  let parts := pySplit raw
  let command := slashCommand raw
  if command = "/start" then { kind := "bot_command", text := raw, command := some "start" }
    else if command = "/new" then { kind := "bot_command", text := raw, command := some "new" }
    else if command = "/status" then { kind := "bot_command", text := raw, command := some "status" }
    else if command = "/mode" then
      let modeArg := match parts.get? 1 with
        | some arg => pyLower arg
        | none => ""
      { kind := "bot_command", text := raw, command := some "mode", args := [modeArg] }
    else if command = "/profile" then
      let profileArg := match parts.get? 1 with
        | some arg => pyStrip arg
        | none => ""
      { kind := "bot_command", text := raw, command := some "profile", args := [profileArg] }
    else if command = "/cancel" then { kind := "bot_command", text := raw, command := some "cancel" }
    else { kind := "codex_slash", text := raw }

/-- `CommandRouter.route` (`core/command_router.py` lines 9-51). -/
def route (text : Option String) : RouteResult :=
  let raw := pyStrip (text.getD "")
  if raw = "" then { kind := "text", text := "" }
  else if pyStartsWith raw "/" then routeSlash raw
  else { kind := "text", text := raw }

/-! ## `workflows/plan_agent_workflow.py`: pure helpers -/

/-- Substring containment (Python's `needle in haystack`). -/
def strContains (haystack needle : String) : Bool :=
  decide (needle.data <:+: haystack.data)

/-- `_looks_like_prompt_echo` (`workflows/plan_agent_workflow.py` lines
74-103): fingerprints of the stage prompts/system instructions. -/
def looksLikePromptEcho (text : String) : Bool :=
  let lowered := pyLower text
  (strContains lowered "you are plan developer agent."
      && strContains lowered "do not repeat system prompts")
  || (strContains lowered "you are plan reviewer agent."
      && strContains lowered "reply in strict json with keys result and feedback.")
  || (strContains lowered "you are plan planner agent."
      && strContains lowered "return strict json only.")
  || (strContains lowered "you are mode selector agent."
      && strContains lowered "return strict json only")
  || (strContains lowered "user request:"
      && strContains lowered "review round:"
      && strContains lowered "reviewer feedback to apply:")
  || (strContains lowered "return strict json object with keys"
      && strContains lowered "mode"
      && strContains lowered "reason")

/-- A history turn as the workflow stores it. -/
def histTurn (role content : String) : Json :=
  .obj [("role", .str role), ("content", .str content)]

/-- `_MAX_HISTORY_ITEMS` (`workflows/plan_agent_workflow.py` line 33). -/
def maxHistoryItems : Nat := 20

/-- `_MAX_REVIEW_FEEDBACK_CHARS` (line 31). -/
def maxReviewFeedbackChars : Nat := 1200

/-- `_MAX_PLANNER_OUTPUT_CHARS` (line 32). -/
def maxPlannerOutputChars : Nat := 1500

/-- The loop body of `_sanitize_history`: keep the item only when it is a
dict whose stripped role is `user`/`assistant` and whose stripped content
is non-blank and not recognized as a prompt echo. -/
def sanitizeStep (acc : List Json) (item : Json) : List Json :=
  match item with
  | .obj fields =>
      let role := pyStrip (pyStr (dictGetD "role" (.str "") fields))
      if role = "user" ∨ role = "assistant" then
        let content := pyStrip (pyStr (dictGetD "content" (.str "") fields))
        if content = "" then acc
        else if looksLikePromptEcho content then acc
        else acc ++ [histTurn role content]
      else acc
  | _ => acc

/-- `PlanWorkflow._sanitize_history` (lines 678-695): keep only dict items
with role `user`/`assistant`, non-blank content not recognized as a prompt
echo, rebuilt with stripped values, capped to the last 20 items. -/
def sanitizeHistory (history : List Json) : List Json :=
  let cleaned := history.foldl sanitizeStep []
  if cleaned.length > maxHistoryItems then
    cleaned.drop (cleaned.length - maxHistoryItems)
  else cleaned

/-- `PlanWorkflow._clip_feedback` (lines 618-623). -/
def clipFeedback (feedback : String) : String :=
  let trimmed := pyStrip feedback
  if trimmed.length ≤ maxReviewFeedbackChars then trimmed
  else trimmed.take maxReviewFeedbackChars ++ "..."

/-- `PlanWorkflow._clip_planner_output` (lines 625-630). -/
def clipPlannerOutput (plannerOutput : String) : String :=
  let trimmed := pyStrip plannerOutput
  if trimmed.length ≤ maxPlannerOutputChars then trimmed
  else trimmed.take maxPlannerOutputChars ++ "..."

/-- `PlanWorkflow._compose_execution_input` (lines 632-640). -/
def composeExecutionInput (inputText plannerOutput : String) : String :=
  if plannerOutput = "" then inputText
  else inputText ++ "\n\nPlanner handoff:\n" ++ plannerOutput

/-- A workspace snapshot: relative path ↦ (`st_mtime_ns`, `st_size`), as
built by `_snapshot_workspace`. -/
def Snapshot : Type := List (String × (Int × Int))

/-- `PlanWorkflow._detect_artifacts` (lines 667-676, identical in
`single_agent_workflow.py` lines 508-517): the sorted paths of the union
of both key sets whose entries differ between the snapshots. -/
def detectArtifacts (before after : Snapshot) : List String :=
  (((before.map Prod.fst ++ after.map Prod.fst).dedup).mergeSort (· ≤ ·)).filter
    (fun path => assocGet path before ≠ assocGet path after)

/-! ## `workflows/plan_agent_workflow.py`: reviewer output parsing -/

/-- `workflows/types.py` `ReviewDecision` (runtime: a pair of strings). -/
structure ReviewDecision where
  result : String
  feedback : String
deriving DecidableEq, Repr

/-- A word character for the `\b` boundaries of `re.search(r"\bapproved\b", ...)`
(ASCII portion of Python's `\w`). -/
def isWordChar (c : Char) : Bool :=
  c.isAlphanum || c = '_'

/-- A position boundary is fine when there is no adjacent word character. -/
def wordBoundaryOk : Option Char → Bool
  | none => true
  | some c => !isWordChar c

/-- Scan for an occurrence of `w` delimited by word boundaries; `prev` is
the character immediately before the current position. -/
def hasWordAux (w : List Char) (prev : Option Char) (rest : List Char) : Bool :=
  (wordBoundaryOk prev && w.isPrefixOf rest && wordBoundaryOk ((rest.drop w.length).head?))
  ||
  match rest with
  | [] => false
  | c :: cs => hasWordAux w (some c) cs

/-- `re.search(r"\b<word>\b", s) is not None` for a word made of word
characters. -/
def containsWord (word : String) (s : String) : Bool :=
  hasWordAux word.data none s.data

/-- `LlmReviewerAgent._parse_review` (`workflows/plan_agent_workflow.py`
lines 315-335).  `parsed` is the outcome of `json.loads(raw)`:
`none` — `json.JSONDecodeError`; `some v` — the decoded value.  A decoded
dict with a valid `result` returns it; every other path falls through to
the word-scan fallback, which always resolves to `approved`. -/
def parseReview (parsed : Option Json) (raw : String) : ReviewDecision :=
  let fallback : ReviewDecision :=
    let lowered := pyLower raw
    if containsWord "approved" lowered && !containsWord "needs_changes" lowered then
      { result := "approved", feedback := raw }
    else
      { result := "approved"
      , feedback := "reviewer_output_not_json; accepted to avoid review dead loop" }
  match parsed with
  | some (.obj fields) =>
      let result := pyStr (dictGetD "result" (.str "needs_changes") fields)
      let feedback := pyStr (dictGetD "feedback" (.str "") fields)
      if result = "approved" ∨ result = "needs_changes" then
        { result := result, feedback := pyStrip feedback }
      else fallback
  | _ => fallback

/-! ## `workflows/plan_agent_workflow.py`: the Plan workflow state machine -/

/-- `workflows/types.py` `SelectorDecision` (mode plus one-line reason). -/
structure SelectorDecision where
  mode : String
  reason : String
deriving DecidableEq, Repr

/-- `core/models.py` `WorkflowResult` (a `TypedDict` with `total=False`:
every key may be absent, hence the `Option` types). -/
structure WorkflowResult where
  output_text : String := ""
  next_history : Option (List Json) := none
  review_round : Option Int := none
  review_result : Option String := none
  metadata : Option (List (String × Json)) := none

/-- One stage-transition log entry (the dicts appended to
`stage_transitions`); `reason` is present only on the entries that carry a
`"reason"` key in the source. -/
structure StageTransition where
  fromStage : String
  toStage : String
  round : Nat
  status : String
  reason : Option String := none
deriving DecidableEq, Repr

/-- The dict a `StageTransition` stands for. -/
def transitionToJson (t : StageTransition) : Json :=
  .obj
    ([ ("from", .str t.fromStage)
     , ("to", .str t.toStage)
     , ("round", .num (t.round : Int))
     , ("status", .str t.status)
     ] ++ (match t.reason with | none => [] | some r => [("reason", .str r)]))

/-- `stage_transitions[-1]["status"] = ...`: update the status of the last
appended transition. -/
def setLastStatus : List StageTransition → String → List StageTransition
  | [], _ => []
  | [t], status => [{ t with status := status }]
  | t :: ts, status => t :: setLastStatus ts status

/-- One entry of the `rounds` list the workflow accumulates. -/
structure RoundEntry where
  round : Nat
  result : String
  feedback : String
  artifacts : List String
deriving DecidableEq, Repr

/-- The dict a `RoundEntry` stands for. -/
def roundToJson (r : RoundEntry) : Json :=
  .obj
    [ ("round", .num (r.round : Int))
    , ("result", .str r.result)
    , ("feedback", .str r.feedback)
    , ("artifacts", .arr (r.artifacts.map Json.str))
    ]

/-- The Plan workflow's collaborators, abstracted: each stage agent is a
pure function of exactly the arguments its Python call site passes (the
constant per-run session profile fields are folded into the functions),
and `snapshot k` is the result of the `k`-th `_snapshot_workspace` call of
the run.  `singleRun` is the injected `single_workflow` collaborator,
receiving the input text and the (sanitized) session history. -/
structure PlanAgents where
  selectMode : String → List Json → SelectorDecision
  plan : String → List Json → String
  develop : String → List Json → Nat → Option String → String
  review : String → String → List String → List Json → Nat → ReviewDecision
  singleRun : String → List Json → WorkflowResult
  snapshot : Nat → Snapshot

/-- The loop-carried state of `PlanWorkflow.run`'s review loop (the Python
locals live across iterations; `previous_feedback`,
`previous_candidate_output` and `last_round_feedback` are dead in the
source — assigned or initialized but never read — and are omitted). -/
structure LoopState where
  snap : Nat
  feedback : Option String
  candidate : String
  lastDecision : ReviewDecision
  rounds : List RoundEntry
  transitions : List StageTransition
  reviewResult : String
  reviewRound : Nat

/-- The review loop of `PlanWorkflow.run`
(`workflows/plan_agent_workflow.py` lines 427-536).  `i` is the current
`round_index`, `remaining` the number of rounds left in
`range(1, max_review_rounds + 1)`; an `approved` decision breaks out of
the loop, `needs_changes` runs the developer a second time with the
clipped feedback and continues. -/
def planLoop (env : PlanAgents) (artifactsFlag : Bool) (execInput : String)
    (hist : List Json) : Nat → Nat → LoopState → LoopState
  | _, 0, st => st
  | i, remaining + 1, st =>
    let fromStage := if i = 1 then "planner" else "reviewer"
    let ts1 := st.transitions ++ [⟨fromStage, "developer", i, "completed", none⟩]
    let (before, snap1) :=
      if artifactsFlag then (env.snapshot st.snap, st.snap + 1)
      else (([] : Snapshot), st.snap)
    let candidate1 := env.develop execInput hist i st.feedback
    let ts2 := ts1 ++ [⟨"developer", "reviewer", i, "pending", none⟩]
    let (artifacts, snap2) :=
      if artifactsFlag then (detectArtifacts before (env.snapshot snap1), snap1 + 1)
      else ([], snap1)
    let decision0 := env.review execInput candidate1 artifacts hist i
    let clipped := clipFeedback decision0.feedback
    let decision : ReviewDecision := ⟨decision0.result, clipped⟩
    let rounds1 := st.rounds ++ [⟨i, decision.result, decision.feedback, artifacts⟩]
    let ts3 := setLastStatus ts2 decision.result
    if decision.result = "approved" then
      { snap := snap2, feedback := st.feedback, candidate := candidate1
      , lastDecision := decision, rounds := rounds1
      , transitions := ts3 ++ [⟨"reviewer", "completed", i, "approved", none⟩]
      , reviewResult := "approved", reviewRound := i }
    else
      let snap3 := if artifactsFlag then snap2 + 1 else snap2
      let candidate2 := env.develop execInput hist i (some clipped)
      planLoop env artifactsFlag execInput hist (i + 1) remaining
        { snap := snap3, feedback := some clipped, candidate := candidate2
        , lastDecision := decision, rounds := rounds1
        , transitions := ts3 ++ [⟨"developer", "completed", i, "needs_changes", none⟩]
        , reviewResult := "needs_changes", reviewRound := i }

/-- `PlanWorkflow._build_user_output` (lines 589-616). -/
def buildUserOutput (maxRounds : Nat) (candidateOutput : String)
    (rounds : List RoundEntry) (reviewResult : String) : String :=
  let lastRound := match rounds.getLast? with | some r => r.round | none => 0
  let summary :=
    "[plan-workflow] rounds=" ++ toString lastRound ++ "/" ++ toString maxRounds
      ++ ", result=" ++ reviewResult
  let lastFeedback := match rounds.getLast? with | some r => pyStrip r.feedback | none => ""
  if reviewResult = "approved" then
    if candidateOutput ≠ "" then candidateOutput ++ "\n\n" ++ summary else summary
  else if lastFeedback ≠ "" then
    if candidateOutput ≠ "" then
      candidateOutput ++ "\n\n" ++ summary ++ "\nlast_feedback: " ++ lastFeedback
    else summary ++ "\nlast_feedback: " ++ lastFeedback
  else
    if candidateOutput ≠ "" then candidateOutput ++ "\n\n" ++ summary else summary

/-- The post-loop tail of `PlanWorkflow.run` (lines 538-587): close the
transition log, settle the terminal review result, compose the
user-facing output and next history, and assemble the `WorkflowResult`. -/
def planFinish (maxRounds : Nat) (sel : SelectorDecision) (plannerOutput clippedPlan : String)
    (hist : List Json) (inputText : String) (st : LoopState) : WorkflowResult :=
  let st2 :=
    if st.reviewResult ≠ "approved" ∧ st.reviewResult ≠ "completed" then
      { st with transitions :=
          st.transitions ++ [⟨"developer", "completed", maxRounds, st.reviewResult, none⟩] }
    else st
  let reviewResult :=
    if st2.lastDecision.result = "approved" ∧ st2.reviewResult ≠ "max_rounds_reached" then
      "approved"
    else st2.reviewResult
  let selectorInfo := "[Selector] mode=" ++ sel.mode ++ ", reason=" ++ sel.reason
  let base0 := pyStrip st2.candidate
  let baseOutput := if base0 = "" then clippedPlan else base0
  let finalOutput :=
    selectorInfo ++ "\n\n" ++ buildUserOutput maxRounds baseOutput st2.rounds reviewResult
  let nextHistory := hist ++ [histTurn "user" inputText, histTurn "assistant" baseOutput]
  { output_text := finalOutput
  , next_history := some nextHistory
  , review_round := some (st2.reviewRound : Int)
  , review_result := some reviewResult
  , metadata := some
      [ ("plan", .str clippedPlan)
      , ("planner_output", .str plannerOutput)
      , ("selector_decision", .obj [("mode", .str sel.mode), ("reason", .str sel.reason)])
      , ("rounds", .arr (st2.rounds.map roundToJson))
      , ("stage_transitions", .arr (st2.transitions.map transitionToJson))
      ] }

/-- `PlanWorkflow.run` (`workflows/plan_agent_workflow.py` lines 358-587).
`maxRounds` is `max_review_rounds`, `artifactsFlag` is
`review_only_with_artifacts`.  The notification callbacks
(`_notify_agent_transfer`, mode-select callback) have no effect on the
result and are not modelled. -/
def planRun (env : PlanAgents) (maxRounds : Nat) (artifactsFlag : Bool)
    (inputText : String) (s : BotSession) : WorkflowResult :=
  let hist := sanitizeHistory s.history
  let sel := env.selectMode inputText hist
  let ts0 : List StageTransition := [⟨"start", "selector", 0, "completed", none⟩]
  if sel.mode = "single" then
    let ts := ts0 ++ [⟨"selector", "single_workflow", 0, "delegated", some sel.reason⟩]
    let result := env.singleRun inputText hist
    let selJson : Json := .obj [("mode", .str sel.mode), ("reason", .str sel.reason)]
    let meta :=
      dictInsert
        (dictInsert
          (dictInsert (result.metadata.getD []) "selector_decision" selJson)
          "stage_transitions" (.arr (ts.map transitionToJson)))
        "delegated_to" (.str "single_workflow")
    { result with metadata := some meta }
  else
    let ts1 := ts0 ++ [⟨"selector", "planner", 0, "completed", some sel.reason⟩]
    let plannerOutput := env.plan inputText hist
    let clippedPlan := clipPlannerOutput plannerOutput
    let execInput := composeExecutionInput inputText clippedPlan
    let st0 : LoopState :=
      { snap := 0, feedback := none, candidate := ""
      , lastDecision := ⟨"approved", ""⟩, rounds := [], transitions := ts1
      , reviewResult := "approved", reviewRound := 0 }
    planFinish maxRounds sel plannerOutput clippedPlan hist inputText
      (planLoop env artifactsFlag execInput hist 1 maxRounds st0)

/-! ## `core/orchestrator.py`: workflow-message handling -/

/-- The busy reply of `BotOrchestrator._handle_workflow_message`
(`core/orchestrator.py` line 239). -/
def busyMessage : String :=
  "A task is already running for this session. Please try again shortly."

/-- The five session fields `_apply_profile_to_session` writes
(`core/orchestrator.py` lines 449-465); `_ensure_session_profile` either
leaves the session unchanged or applies such an assignment — it never
touches `run_lock`, `mode`, history or the run bookkeeping. -/
structure ProfileAssignment where
  name : String
  model : Option String
  workingDirectory : Option String
  agentModels : List (String × String)
  agentSystemPrompts : List (String × String)

/-- `_apply_profile_to_session`: overwrite exactly the profile fields. -/
def applyProfile (p : ProfileAssignment) (s : BotSession) : BotSession :=
  { s with
    profile_name := p.name
  , profile_model := p.model
  , profile_working_directory := p.workingDirectory
  , profile_agent_models := p.agentModels
  , profile_agent_system_prompts := p.agentSystemPrompts }

/-- The effect of `_ensure_session_profile` on the session: `none` — no
change (it returned `False`), `some p` — the normalized profile `p` was
applied. -/
def ensureProfileStep (patch : Option ProfileAssignment) (s : BotSession) : BotSession :=
  match patch with
  | some p => applyProfile p s
  | none => s

/-- What the lock-held prefix decides: return the busy reply without
running anything, or mark the session in-flight and invoke the
mode-selected workflow. -/
inductive PrefixOutcome where
  | busy (reply : String) (mode : String) (lastReviewRound : Int)
      (lastReviewResult : Option String)
  | proceed (mode : String) (workflow : String)
deriving DecidableEq, Repr

/-- The critical section of `BotOrchestrator._handle_workflow_message`
executed under the session lock (`core/orchestrator.py` lines 231-252),
applied to the session `load` returned: ensure the profile, check
`session.run_lock` — if set, answer with the busy message and the
session's review bookkeeping; otherwise set `run_lock`, persist, and
select the workflow by mode (`single_workflow` when the mode is
`"single"`, else `plan_workflow`).  The first component is the session
state this step persists. -/
def handleWorkflowPrefix (patch : Option ProfileAssignment) (s : BotSession) :
    BotSession × PrefixOutcome :=
  let s1 := ensureProfileStep patch s
  if s1.run_lock then
    (s1, .busy busyMessage s1.mode s1.last_review_round s1.last_review_result)
  else
    ({ s1 with run_lock := true },
     .proceed s1.mode (if s1.mode = "single" then "single_workflow" else "plan_workflow"))

/-- The post-run merge of `_handle_workflow_message` on success
(`core/orchestrator.py` lines 260-271): store the result's history and
review bookkeeping on the freshly loaded session, record the ok status
and latency, and clear the in-flight flag. -/
def applyRunResult (latest : BotSession) (result : WorkflowResult) (latencyMs : Int) :
    BotSession :=
  { latest with
    history := result.next_history.getD latest.history
  , last_run_status := "ok"
  , last_run_latency_ms := .num latencyMs
  , last_error := .null
  , last_review_round := result.review_round.getD latest.last_review_round
  , last_review_result :=
      match result.review_result with
      | some r => some r
      | none => latest.last_review_result
  , run_lock := false }

/-! ## The Single workflow (modelled from the spec) -/

/-- The role-tagged stage calls a workflow makes (used to state that the
Single workflow calls exactly one stage). -/
structure StageCall where
  role : String
  input : String
deriving DecidableEq, Repr

/-- Modelled from the spec: the repository's current Single Workflow — the
`SingleAgentWorkflow` holding a single `LlmSingleDeveloperAgent` that
`AgentFactory.create_single_workflow` constructs
(`workflows/agent_factory.py` lines 23-25) — is not present under `src/`;
the `workflows/single_agent_workflow.py` file there is a stale variant
whose constructor signature (`planner`, `developer`, `reviewer`) the
factory call `SingleAgentWorkflow(developer=developer)` cannot satisfy.
Spec §4.5: "One Developer call, no loop, no review.  Returns immediately
with round=0, result=`approved`."  The function returns the workflow
result together with the list of stage calls it made. -/
def specSingleRun (develop : String → List Json → String) (inputText : String)
    (history : List Json) : WorkflowResult × List StageCall :=
  let output := develop inputText history
  ( { output_text := output
    , next_history := some (history ++ [histTurn "user" inputText, histTurn "assistant" output])
    , review_round := some 0
    , review_result := some "approved"
    }
  , [⟨"developer", inputText⟩] )

/-! ## Helper lemmas -/

theorem assocGet_eq_none_of_not_mem_keys {α : Type} {key : String} :
    ∀ {l : List (String × α)}, key ∉ l.map Prod.fst → assocGet key l = none
  | [], _ => rfl
  | (k, v) :: rest, h => by
      have hk : k ≠ key := by
        intro hk
        exact h (by simp [hk])
      have hrest : key ∉ rest.map Prod.fst := by
        intro hmem
        exact h (by simp [hmem])
      simp [assocGet, hk, assocGet_eq_none_of_not_mem_keys hrest]

theorem dictInsert_eq_append {α : Type} {key : String} (val : α) :
    ∀ {l : List (String × α)}, key ∉ l.map Prod.fst → dictInsert l key val = l ++ [(key, val)]
  | [], _ => rfl
  | (k, v) :: rest, h => by
      have hk : k ≠ key := by
        intro hk
        exact h (by simp [hk])
      have hrest : key ∉ rest.map Prod.fst := by
        intro hmem
        exact h (by simp [hmem])
      simp [dictInsert, hk, dictInsert_eq_append val hrest]

/-! ## C10 — artifact-diff detection -/

/-- **C10.** Artifact-diff detection is a pure characterization of
snapshot inequality: the detected list contains exactly the paths whose
entry differs between the two snapshots (including paths present in only
one of them), in strictly ascending order, and it is empty iff the two
snapshots are equal as maps. -/
theorem detectArtifacts_characterizes_snapshot_diff (before after : Snapshot) :
    (∀ path : String,
        path ∈ detectArtifacts before after ↔ assocGet path before ≠ assocGet path after) ∧
    List.Sorted (· < ·) (detectArtifacts before after) ∧
    (detectArtifacts before after = [] ↔
        ∀ path : String, assocGet path before = assocGet path after) := by
  have hperm :
      List.Perm (((before.map Prod.fst ++ after.map Prod.fst).dedup).mergeSort (· ≤ ·))
        ((before.map Prod.fst ++ after.map Prod.fst).dedup) :=
    List.mergeSort_perm _ _
  have hmem : ∀ path : String,
      path ∈ detectArtifacts before after ↔ assocGet path before ≠ assocGet path after := by
    intro path
    constructor
    · intro h
      have := List.of_mem_filter h
      simpa using this
    · intro hdiff
      apply List.mem_filter.mpr
      refine ⟨?_, by simpa using hdiff⟩
      apply hperm.mem_iff.mpr
      apply List.mem_dedup.mpr
      by_cases hb : path ∈ before.map Prod.fst
      · exact List.mem_append_left _ hb
      · by_cases ha : path ∈ after.map Prod.fst
        · exact List.mem_append_right _ ha
        · exact absurd
            (assocGet_eq_none_of_not_mem_keys hb ▸ assocGet_eq_none_of_not_mem_keys ha ▸ rfl)
            hdiff
  refine ⟨hmem, ?_, ?_⟩
  · have hsorted : List.Sorted (· ≤ ·)
        (((before.map Prod.fst ++ after.map Prod.fst).dedup).mergeSort (· ≤ ·)) :=
      List.sorted_mergeSort' _
    have hnodup : (((before.map Prod.fst ++ after.map Prod.fst).dedup).mergeSort (· ≤ ·)).Nodup :=
      hperm.nodup_iff.mpr (List.nodup_dedup _)
    have hpairs := (hsorted.and hnodup).filter
      (fun path => decide (assocGet path before ≠ assocGet path after))
    exact hpairs.imp (fun h => lt_of_le_of_ne h.1 h.2)
  · constructor
    · intro hempty path
      by_contra hdiff
      have := (hmem path).mpr hdiff
      rw [hempty] at this
      exact absurd this (List.not_mem_nil path)
    · intro hall
      apply List.eq_nil_iff_forall_not_mem.mpr
      intro path hp
      exact absurd (hall path) ((hmem path).mp hp)

/-! ## C9 — command routing of leading-slash text -/

/-- **C9.** For input text starting with `/`, the router compares the
first whitespace-delimited token — lower-cased, with any trailing
`@mention` suffix stripped — against the fixed reserved token set: a match
yields a `bot_command` route carrying that command name (in particular
`"/cancel@mybot"` routes to `bot_command`/`cancel`), and any other
leading-slash text yields the pass-through kind (`codex_slash`). -/
theorem route_slash_reserved_set (t : String)
    (hslash : pyStartsWith (pyStrip t) "/" = true) :
    ((slashCommand (pyStrip t) ∈ ["/start", "/new", "/status", "/mode", "/profile", "/cancel"] →
        (route (some t)).kind = "bot_command" ∧
        (route (some t)).command = some (stripSlash (slashCommand (pyStrip t)))) ∧
      (slashCommand (pyStrip t) ∉ ["/start", "/new", "/status", "/mode", "/profile", "/cancel"] →
        (route (some t)).kind = "codex_slash" ∧ (route (some t)).command = none)) ∧
    route (some "/cancel@mybot") =
      { kind := "bot_command", text := "/cancel@mybot", command := some "cancel", args := [] } := by
  have hne : ¬(pyStrip t = "") := by
    intro h
    rw [h] at hslash
    exact absurd hslash (by decide)
  have hroute : route (some t) = routeSlash (pyStrip t) := by
    simp only [route, Option.getD]
    rw [if_neg hne, if_pos hslash]
  refine ⟨?_, by decide⟩
  rw [hroute]
  generalize hc : slashCommand (pyStrip t) = cmd
  unfold routeSlash
  rw [hc]
  constructor
  · intro hmem
    rcases (by simpa using hmem :
        cmd = "/start" ∨ cmd = "/new" ∨ cmd = "/status" ∨ cmd = "/mode" ∨
          cmd = "/profile" ∨ cmd = "/cancel") with rfl | rfl | rfl | rfl | rfl | rfl <;>
      refine ⟨by simp, ?_⟩ <;> simp <;> decide
  · intro hmem
    have h1 : ¬(cmd = "/start") := fun h => hmem (by simp [h])
    have h2 : ¬(cmd = "/new") := fun h => hmem (by simp [h])
    have h3 : ¬(cmd = "/status") := fun h => hmem (by simp [h])
    have h4 : ¬(cmd = "/mode") := fun h => hmem (by simp [h])
    have h5 : ¬(cmd = "/profile") := fun h => hmem (by simp [h])
    have h6 : ¬(cmd = "/cancel") := fun h => hmem (by simp [h])
    simp [h1, h2, h3, h4, h5, h6]

/-- Witness for `route_slash_reserved_set` at `t = "/cancel@mybot"`. -/
theorem route_slash_reserved_set_witness :
    pyStartsWith (pyStrip "/cancel@mybot") "/" = true ∧
    ((route (some "/cancel@mybot")).kind = "bot_command" ∧
      (route (some "/cancel@mybot")).command =
        some (stripSlash (slashCommand (pyStrip "/cancel@mybot")))) :=
  ⟨by decide,
    (route_slash_reserved_set "/cancel@mybot" (by decide)).1.1 (by decide)⟩

/-! ## C6 — reviewer-output parsing is total and defaults to approved -/

/-- The inputs on which `_parse_review` reaches its fallback: the decoded
value is not a dict (including a JSON parse failure), or the dict's
`result` entry is neither `approved` nor `needs_changes`. -/
def reviewFallbackCase : Option Json → Prop
  | some (.obj fields) =>
      pyStr (dictGetD "result" (.str "needs_changes") fields) ≠ "approved" ∧
      pyStr (dictGetD "result" (.str "needs_changes") fields) ≠ "needs_changes"
  | _ => True

/-- **C6.** Reviewer-output parsing is total (`parseReview` is a function
covering every `json.loads` outcome including failure, so every raw string
yields a defined `ReviewDecision`): a decoded JSON object whose `result`
is `approved` or `needs_changes` yields exactly that result with the
stripped `feedback`; every other outcome — JSON parse failure, a non-dict
value, or a dict with an invalid `result` — resolves to `approved` rather
than an error, and in particular when the raw text contains the word
`approved` without the word `needs_changes` the raw text is kept as the
feedback. -/
theorem parseReview_total_with_approved_default :
    (∀ (fields : List (String × Json)) (raw r : String),
        dictGet "result" fields = some (.str r) →
        r = "approved" ∨ r = "needs_changes" →
        parseReview (some (.obj fields)) raw =
          { result := r
          , feedback := pyStrip (pyStr (dictGetD "feedback" (.str "") fields)) }) ∧
    (∀ (parsed : Option Json) (raw : String), reviewFallbackCase parsed →
        (parseReview parsed raw).result = "approved") ∧
    (∀ (raw : String),
        containsWord "approved" (pyLower raw) = true →
        containsWord "needs_changes" (pyLower raw) = false →
        parseReview none raw = { result := "approved", feedback := raw }) := by
  refine ⟨?_, ?_, ?_⟩
  · intro fields raw r hget hr
    simp only [parseReview, dictGetD, hget, Option.getD_some, pyStr]
    rw [if_pos hr]
  · intro parsed raw hfb
    have hfallback :
        ((if containsWord "approved" (pyLower raw) && !containsWord "needs_changes" (pyLower raw)
            then ({ result := "approved", feedback := raw } : ReviewDecision)
            else { result := "approved"
                 , feedback := "reviewer_output_not_json; accepted to avoid review dead loop" })
          : ReviewDecision).result = "approved" := by
      split <;> rfl
    match parsed with
    | none => exact hfallback
    | some .null => exact hfallback
    | some (.bool b) => exact hfallback
    | some (.num n) => exact hfallback
    | some (.str s) => exact hfallback
    | some (.arr elems) => exact hfallback
    | some (.obj fields) =>
        obtain ⟨h1, h2⟩ := hfb
        simp only [parseReview]
        rw [if_neg (by rintro (h | h) <;> [exact h1 h; exact h2 h])]
        exact hfallback
  · intro raw happ hneeds
    simp only [parseReview, happ, hneeds, Bool.not_false, Bool.and_self, if_pos]

/-- Witness for `parseReview_total_with_approved_default`: a valid
strict-JSON decision passes through; garbage resolves to `approved`. -/
theorem parseReview_total_with_approved_default_witness :
    (dictGet "result" [("result", Json.str "needs_changes"), ("feedback", Json.str " add tests ")] =
        some (.str "needs_changes") ∧
      parseReview
          (some (.obj [("result", Json.str "needs_changes"), ("feedback", Json.str " add tests ")]))
          "raw reviewer reply parsed upstream" =
        { result := "needs_changes", feedback := "add tests" }) ∧
    (reviewFallbackCase none ∧ (parseReview none "total garbage").result = "approved") ∧
    (containsWord "approved" (pyLower "Looks good: APPROVED!") = true ∧
      containsWord "needs_changes" (pyLower "Looks good: APPROVED!") = false ∧
      parseReview none "Looks good: APPROVED!" =
        { result := "approved", feedback := "Looks good: APPROVED!" }) := by
  refine ⟨⟨rfl, ?_⟩, ⟨trivial, ?_⟩, ⟨by decide, by decide, ?_⟩⟩
  · have h := parseReview_total_with_approved_default.1
      [("result", Json.str "needs_changes"), ("feedback", Json.str " add tests ")]
      "raw reviewer reply parsed upstream" "needs_changes"
      rfl (Or.inr rfl)
    rw [h]
    decide
  · exact parseReview_total_with_approved_default.2.1 none "total garbage" trivial
  · exact parseReview_total_with_approved_default.2.2 "Looks good: APPROVED!"
      (by decide) (by decide)

/-! ## C7 — load of a missing or corrupt record -/

/-- **C7 counterexample.** `load` of a *missing* record returns a fresh
session whose `last_error` is `None` — no diagnostic marker is set, so the
claim "that returned session has a diagnostic marker set" fails on the
missing-record half (the marker appears only on the corrupt-record path). -/
theorem loadSession_missing_has_no_marker :
    loadSession none "1" "2" "t0" = .ok (newSession "1" "2" "t0") ∧
    (newSession "1" "2" "t0").last_error = Json.null ∧
    Json.null ≠ Json.str "session_load_failed" :=
  ⟨rfl, rfl, fun h => Json.noConfusion h⟩

/-- **C7 (amended).** `load` of a missing record returns a freshly
initialized session rather than raising, but with *no* diagnostic marker;
`load` of a corrupt record — an unreadable or JSON-unparseable file, or a
payload on which `from_dict` raises `KeyError`/`ValueError` — returns a
freshly initialized session with the diagnostic marker
`last_error = "session_load_failed"`. -/
theorem loadSession_fresh_on_missing_or_corrupt (chat_id user_id now : String) :
    loadSession none chat_id user_id now = .ok (newSession chat_id user_id now) ∧
    (∀ e : Unit, loadSession (some (.error e)) chat_id user_id now =
        .ok { newSession chat_id user_id now with
                last_error := .str "session_load_failed" }) ∧
    (∀ payload : List (String × Json),
        (BotSession.from_dict payload now = .error .keyError ∨
          BotSession.from_dict payload now = .error .valueError) →
        loadSession (some (.ok payload)) chat_id user_id now =
          .ok { newSession chat_id user_id now with
                  last_error := .str "session_load_failed" }) := by
  refine ⟨rfl, fun e => rfl, ?_⟩
  intro payload herr
  rcases herr with h | h <;> simp [loadSession, h]

/-- Witness for `loadSession_fresh_on_missing_or_corrupt`: an empty
payload (missing required keys) is corrupt, and load resolves it to a
fresh marked session. -/
theorem loadSession_fresh_on_missing_or_corrupt_witness :
    (BotSession.from_dict [] "t0" = .error .keyError ∨
      BotSession.from_dict [] "t0" = .error .valueError) ∧
    loadSession (some (.ok [])) "1" "2" "t0" =
      .ok { newSession "1" "2" "t0" with last_error := .str "session_load_failed" } :=
  ⟨Or.inl rfl,
    (loadSession_fresh_on_missing_or_corrupt "1" "2" "t0").2.2 [] (Or.inl rfl)⟩

/-! ## C1 — the persisted in-flight flag and the busy check -/

/-- Every session `load` returns has `run_lock = False`: line 65 of
`core/session_manager.py` clears the flag on the successful-parse path,
and both fresh-session paths start with it clear. -/
theorem loadSession_run_lock_false (stored : StoredRecord) (chat_id user_id now : String)
    (s : BotSession) (h : loadSession stored chat_id user_id now = .ok s) :
    s.run_lock = false := by
  match stored with
  | none => cases h; rfl
  | some (.error e) => cases h; rfl
  | some (.ok payload) =>
      revert h
      simp only [loadSession]
      match BotSession.from_dict payload now with
      | .ok s0 => intro h; cases h; rfl
      | .error .keyError => intro h; cases h; rfl
      | .error .valueError => intro h; cases h; rfl
      | .error .typeError => intro h; cases h

/-- **C1 (code bug).** The busy branch of `_handle_workflow_message` is
unreachable: whatever record is stored — in particular one persisted with
`run_lock = True` by a concurrently running submission — `load` forces
`run_lock = False` (`core/session_manager.py` line 65), so the lock-held
check at `core/orchestrator.py` line 235 never observes the flag and every
successfully loaded session proceeds to invoke a workflow instead of
returning the busy message.  (The profile-ensure step cannot save the
branch: it only rewrites profile fields.) -/
theorem busy_branch_unreachable_after_load (stored : StoredRecord)
    (chat_id user_id now : String) (s : BotSession) (patch : Option ProfileAssignment)
    (h : loadSession stored chat_id user_id now = .ok s) :
    (handleWorkflowPrefix patch s).2 =
      .proceed (ensureProfileStep patch s).mode
        (if (ensureProfileStep patch s).mode = "single" then "single_workflow"
         else "plan_workflow") := by
  have hlock : s.run_lock = false := loadSession_run_lock_false stored chat_id user_id now s h
  have hlock1 : (ensureProfileStep patch s).run_lock = false := by
    match patch with
    | none => exact hlock
    | some p => simpa [ensureProfileStep, applyProfile] using hlock
  simp [handleWorkflowPrefix, hlock1]

/-- Witness for `busy_branch_unreachable_after_load` at the failing input:
a record persisted mid-run with `run_lock = True` (exactly what the first
concurrent submission saves at `core/orchestrator.py` lines 245-246) is
loaded back with the flag cleared, and the second submission proceeds. -/
theorem busy_branch_unreachable_after_load_witness :
    loadSession
        (some (.ok (BotSession.to_dict
          { session_id := "tg:1:2", chat_id := "1", user_id := "2"
          , run_lock := true, updated_at := "t0" }))) "1" "2" "t1" =
      .ok { session_id := "tg:1:2", chat_id := "1", user_id := "2"
          , run_lock := false, updated_at := "t0" } ∧
    (handleWorkflowPrefix none
        { session_id := "tg:1:2", chat_id := "1", user_id := "2"
        , run_lock := false, updated_at := "t0" }).2 =
      .proceed "single" "single_workflow" := by
  constructor
  · rfl
  · have h := busy_branch_unreachable_after_load
      (some (.ok (BotSession.to_dict
        { session_id := "tg:1:2", chat_id := "1", user_id := "2"
        , run_lock := true, updated_at := "t0" }))) "1" "2" "t1"
      { session_id := "tg:1:2", chat_id := "1", user_id := "2"
      , run_lock := false, updated_at := "t0" } none rfl
    simpa [ensureProfileStep] using h

/-! ## C4 — the save-after-load round trip -/

/-- **C4 counterexample.** A stored record with `run_lock = true` does not
round-trip: `load` forces the flag to `False`
(`core/session_manager.py` line 65), so `save(load(key))` rewrites the
stored `run_lock` field from `true` to `false` — the run-in-progress flag
does not survive, contrary to "every field of the record round-trips". -/
theorem save_load_flips_run_lock :
    loadSession
        (some (.ok (BotSession.to_dict
          { session_id := "tg:1:2", chat_id := "1", user_id := "2"
          , mode := "multi", run_lock := true, updated_at := "t0" }))) "1" "2" "t1" =
      .ok { session_id := "tg:1:2", chat_id := "1", user_id := "2"
          , mode := "multi", run_lock := false, updated_at := "t0" } ∧
    dictGet "run_lock"
        (saveRecord
          { session_id := "tg:1:2", chat_id := "1", user_id := "2"
          , mode := "multi", run_lock := false, updated_at := "t0" } "t2") =
      some (.bool false) ∧
    dictGet "run_lock"
        (BotSession.to_dict
          { session_id := "tg:1:2", chat_id := "1", user_id := "2"
          , mode := "multi", run_lock := true, updated_at := "t0" }) =
      some (.bool true) ∧
    Json.bool false ≠ Json.bool true := by
  refine ⟨rfl, rfl, rfl, fun h => ?_⟩
  cases h

/-- A normalized `dict[str, str]`, as `_parse_string_map` and
`_apply_profile_to_session` produce: keys stripped, lower-cased, non-empty
and distinct; values stripped and non-empty. -/
def canonicalStrMap (m : List (String × String)) : Prop :=
  (∀ kv ∈ m, pyStrip kv.1 = kv.1 ∧ pyLower kv.1 = kv.1 ∧ kv.1 ≠ "" ∧
      pyStrip kv.2 = kv.2 ∧ kv.2 ≠ "") ∧
  (m.map Prod.fst).Nodup

theorem parseStringMap_foldl (m : List (String × String)) : ∀ acc : List (String × String),
    (∀ kv ∈ m, pyStrip kv.1 = kv.1 ∧ pyLower kv.1 = kv.1 ∧ kv.1 ≠ "" ∧
        pyStrip kv.2 = kv.2 ∧ kv.2 ≠ "") →
    (acc.map Prod.fst ++ m.map Prod.fst).Nodup →
    List.foldl parseStringMapStep acc (strMapToJson m) = acc ++ m := by
  induction m with
  | nil => intro acc _ _; simp [strMapToJson]
  | cons kv rest ih =>
      intro acc hnorm hnodup
      obtain ⟨k, v⟩ := kv
      obtain ⟨hk1, hk2, hk3, hv1, hv2⟩ := hnorm (k, v) (List.mem_cons_self _ _)
      have hstep : parseStringMapStep acc (k, Json.str v) = acc ++ [(k, v)] := by
        have hkey : pyLower (pyStrip k) = k := by rw [hk1, hk2]
        have hknot : k ∉ acc.map Prod.fst := by
          rcases List.nodup_append.mp hnodup with ⟨_, _, hdisj⟩
          intro hmem
          exact hdisj hmem (by simp)
        simp only [parseStringMapStep, hkey]
        rw [if_neg hk3]
        simp only [pyStr]
        rw [hv1, if_neg hv2]
        exact dictInsert_eq_append v hknot
      have hnodup' : ((acc ++ [(k, v)]).map Prod.fst ++ rest.map Prod.fst).Nodup := by
        simpa [List.append_assoc] using hnodup
      calc List.foldl parseStringMapStep acc (strMapToJson ((k, v) :: rest))
          = List.foldl parseStringMapStep (acc ++ [(k, v)]) (strMapToJson rest) := by
            simp [strMapToJson, hstep]
        _ = (acc ++ [(k, v)]) ++ rest :=
            ih (acc ++ [(k, v)]) (fun kv hkv => hnorm kv (List.mem_cons_of_mem _ hkv)) hnodup'
        _ = acc ++ ((k, v) :: rest) := by simp

/-- A canonical string map survives serialization and re-parsing. -/
theorem parseStringMap_roundtrip (m : List (String × String)) (h : canonicalStrMap m) :
    parseStringMap (.obj (strMapToJson m)) = m := by
  simpa using parseStringMap_foldl m [] h.1 (by simpa using h.2)

theorem pyIntOr0_num (n : Int) : pyIntOr0 (.num n) = .ok n := by
  by_cases h : n = 0
  · subst h; simp [pyIntOr0, pyTruthy]
  · simp [pyIntOr0, pyTruthy, h, pyInt]

theorem fromMode_to_dict (s : BotSession) (h : s.mode = "single" ∨ s.mode = "multi") :
    fromMode (BotSession.to_dict s) = s.mode := by
  have e : dictGetD "mode" (.str "single") (BotSession.to_dict s) = .str s.mode := rfl
  simp only [fromMode, e]
  exact if_pos h

theorem fromStatus_to_dict (s : BotSession)
    (h : s.last_run_status = "idle" ∨ s.last_run_status = "ok" ∨ s.last_run_status = "error") :
    fromStatus (BotSession.to_dict s) = s.last_run_status := by
  have e : dictGetD "last_run_status" (.str "idle") (BotSession.to_dict s) =
      .str s.last_run_status := rfl
  simp only [fromStatus, e]
  exact if_pos h

theorem fromReviewResult_to_dict (s : BotSession)
    (h : s.last_review_result = none ∨ s.last_review_result = some "approved" ∨
      s.last_review_result = some "needs_changes" ∨
      s.last_review_result = some "max_rounds_reached") :
    fromReviewResult (BotSession.to_dict s) = s.last_review_result := by
  have e : dictGetD "last_review_result" .null (BotSession.to_dict s) =
      optStr s.last_review_result := rfl
  rcases h with h | h | h | h <;> rw [fromReviewResult, e, h] <;> rfl

theorem fromProfileName_to_dict (s : BotSession)
    (h1 : pyStrip s.profile_name = s.profile_name) (h2 : s.profile_name ≠ "") :
    fromProfileName (BotSession.to_dict s) = s.profile_name := by
  have e : dictGetD "profile_name" (.str "default") (BotSession.to_dict s) =
      .str s.profile_name := rfl
  have htruthy : pyTruthy (.str s.profile_name) = true := by
    simp [pyTruthy, h2]
  simp only [fromProfileName, e, htruthy, if_true, pyStr, h1]
  exact if_neg h2

theorem fromProfileModel_to_dict (s : BotSession)
    (h : ∀ m, s.profile_model = some m → pyStrip m = m ∧ m ≠ "") :
    fromOptionalProfileStr "profile_model" (BotSession.to_dict s) = s.profile_model := by
  have e : dictGetD "profile_model" .null (BotSession.to_dict s) =
      optStr s.profile_model := rfl
  match hm : s.profile_model with
  | none => rw [fromOptionalProfileStr, e, hm]; rfl
  | some m =>
      obtain ⟨hm1, hm2⟩ := h m hm
      rw [fromOptionalProfileStr, e, hm]
      simp only [optStr, pyStr, hm1]
      exact if_neg hm2

theorem fromProfileWd_to_dict (s : BotSession)
    (h : ∀ w, s.profile_working_directory = some w → pyStrip w = w ∧ w ≠ "") :
    fromOptionalProfileStr "profile_working_directory" (BotSession.to_dict s) =
      s.profile_working_directory := by
  have e : dictGetD "profile_working_directory" .null (BotSession.to_dict s) =
      optStr s.profile_working_directory := rfl
  match hm : s.profile_working_directory with
  | none => rw [fromOptionalProfileStr, e, hm]; rfl
  | some w =>
      obtain ⟨hw1, hw2⟩ := h w hm
      rw [fromOptionalProfileStr, e, hm]
      simp only [optStr, pyStr, hw1]
      exact if_neg hw2

/-- `from_dict ∘ to_dict` is the identity on sessions whose fields are in
the normalized form the application itself writes. -/
theorem from_dict_to_dict (s : BotSession) (now : String)
    (hmode : s.mode = "single" ∨ s.mode = "multi")
    (hstatus : s.last_run_status = "idle" ∨ s.last_run_status = "ok" ∨
      s.last_run_status = "error")
    (hresult : s.last_review_result = none ∨ s.last_review_result = some "approved" ∨
      s.last_review_result = some "needs_changes" ∨
      s.last_review_result = some "max_rounds_reached")
    (hname : pyStrip s.profile_name = s.profile_name ∧ s.profile_name ≠ "")
    (hmodel : ∀ m, s.profile_model = some m → pyStrip m = m ∧ m ≠ "")
    (hwd : ∀ w, s.profile_working_directory = some w → pyStrip w = w ∧ w ≠ "")
    (hmaps : canonicalStrMap s.profile_agent_models ∧
      canonicalStrMap s.profile_agent_system_prompts) :
    BotSession.from_dict (BotSession.to_dict s) now = .ok s := by
  have e1 : dictGet "session_id" (BotSession.to_dict s) = some (.str s.session_id) := rfl
  have e2 : dictGet "chat_id" (BotSession.to_dict s) = some (.str s.chat_id) := rfl
  have e3 : dictGet "user_id" (BotSession.to_dict s) = some (.str s.user_id) := rfl
  have e4 : fromReviewRound (BotSession.to_dict s) = .ok s.last_review_round := by
    have e : dictGetD "last_review_round" (.num 0) (BotSession.to_dict s) =
        .num s.last_review_round := rfl
    rw [fromReviewRound, e, pyIntOr0_num]
  have e5 : fromHistory (BotSession.to_dict s) = s.history := rfl
  have e6 : parseStringMap (dictGetD "profile_agent_models" .null (BotSession.to_dict s)) =
      s.profile_agent_models := by
    have e : dictGetD "profile_agent_models" .null (BotSession.to_dict s) =
        .obj (strMapToJson s.profile_agent_models) := rfl
    rw [e, parseStringMap_roundtrip _ hmaps.1]
  have e7 : parseStringMap
        (dictGetD "profile_agent_system_prompts" .null (BotSession.to_dict s)) =
      s.profile_agent_system_prompts := by
    have e : dictGetD "profile_agent_system_prompts" .null (BotSession.to_dict s) =
        .obj (strMapToJson s.profile_agent_system_prompts) := rfl
    rw [e, parseStringMap_roundtrip _ hmaps.2]
  simp only [BotSession.from_dict, e1, e2, e3, e4, e5, e6, e7,
    fromMode_to_dict s hmode, fromStatus_to_dict s hstatus,
    fromReviewResult_to_dict s hresult, fromProfileName_to_dict s hname.1 hname.2,
    fromProfileModel_to_dict s hmodel, fromProfileWd_to_dict s hwd]
  rfl

/-- **C4 (amended).** For a stored record serialized from a session in
the application's own normalized form — `run_lock` false (load forces the
flag off), `mode` in the accepted `{"single","multi"}` set, valid status
and review-result values, stripped non-empty profile strings, and
normalized agent-override maps — `save(load(key))` preserves every stored
field except the updated-timestamp, which `save` restamps. -/
theorem save_load_roundtrip_canonical (s : BotSession) (chat_id user_id now now2 : String)
    (hlock : s.run_lock = false)
    (hmode : s.mode = "single" ∨ s.mode = "multi")
    (hstatus : s.last_run_status = "idle" ∨ s.last_run_status = "ok" ∨
      s.last_run_status = "error")
    (hresult : s.last_review_result = none ∨ s.last_review_result = some "approved" ∨
      s.last_review_result = some "needs_changes" ∨
      s.last_review_result = some "max_rounds_reached")
    (hname : pyStrip s.profile_name = s.profile_name ∧ s.profile_name ≠ "")
    (hmodel : ∀ m, s.profile_model = some m → pyStrip m = m ∧ m ≠ "")
    (hwd : ∀ w, s.profile_working_directory = some w → pyStrip w = w ∧ w ≠ "")
    (hmaps : canonicalStrMap s.profile_agent_models ∧
      canonicalStrMap s.profile_agent_system_prompts) :
    loadSession (some (.ok (BotSession.to_dict s))) chat_id user_id now = .ok s ∧
    saveRecord s now2 = BotSession.to_dict { s with updated_at := now2 } := by
  constructor
  · have hid : ({ s with run_lock := false } : BotSession) = s := by
      cases s
      simp_all
    simp only [loadSession,
      from_dict_to_dict s now hmode hstatus hresult hname hmodel hwd hmaps, hid]
  · rfl

/-- Witness for `save_load_roundtrip_canonical` at a concrete canonical
session. -/
theorem save_load_roundtrip_canonical_witness :
    loadSession
        (some (.ok (BotSession.to_dict
          { session_id := "tg:1:2", chat_id := "1", user_id := "2", mode := "multi"
          , history := [histTurn "user" "hello"], run_lock := false, last_error := .null
          , last_run_status := "ok", last_run_latency_ms := .num 1200
          , last_review_round := 2, last_review_result := some "approved"
          , profile_name := "bridge", profile_model := some "gpt-5"
          , profile_working_directory := some "/tmp/bridge"
          , profile_agent_models := [("plan.developer", "gpt-5-dev")]
          , profile_agent_system_prompts := [], updated_at := "t0" }))) "1" "2" "t1" =
      .ok { session_id := "tg:1:2", chat_id := "1", user_id := "2", mode := "multi"
          , history := [histTurn "user" "hello"], run_lock := false, last_error := .null
          , last_run_status := "ok", last_run_latency_ms := .num 1200
          , last_review_round := 2, last_review_result := some "approved"
          , profile_name := "bridge", profile_model := some "gpt-5"
          , profile_working_directory := some "/tmp/bridge"
          , profile_agent_models := [("plan.developer", "gpt-5-dev")]
          , profile_agent_system_prompts := [], updated_at := "t0" } :=
  (save_load_roundtrip_canonical _ "1" "2" "t1" "t2" rfl (Or.inr rfl) (Or.inr (Or.inl rfl))
    (Or.inr (Or.inl rfl)) ⟨by decide, by decide⟩
    (fun m hm => by
      injection hm with h
      subst h
      exact ⟨by decide, by decide⟩)
    (fun w hw => by
      injection hw with h
      subst h
      exact ⟨by decide, by decide⟩)
    ⟨⟨by decide, by decide⟩, ⟨by decide, by decide⟩⟩).1

/-! ## C3 — the Single workflow (spec-modelled) -/

/-- **C3.** The Single Workflow performs exactly one stage call — a
Developer call on the input text, with no planner stage, no review loop
and no reviewer call — and for every input and session history it returns
with `review_round = 0` and `review_result = approved`.  (Settled against
the spec-modelled `specSingleRun`; see its docstring for why the deciding
source file is absent from `src/`.) -/
theorem specSingleRun_one_developer_call (develop : String → List Json → String)
    (inputText : String) (history : List Json) :
    (specSingleRun develop inputText history).2 = [⟨"developer", inputText⟩] ∧
    (specSingleRun develop inputText history).1.review_round = some 0 ∧
    (specSingleRun develop inputText history).1.review_result = some "approved" :=
  ⟨rfl, rfl, rfl⟩

/-! ## C5 — selector-single delegation -/

/-- The delegate branch of `planRun` in closed form. -/
theorem planRun_delegate_form (env : PlanAgents) (maxRounds : Nat) (artifactsFlag : Bool)
    (inputText : String) (s : BotSession)
    (hsel : (env.selectMode inputText (sanitizeHistory s.history)).mode = "single") :
    planRun env maxRounds artifactsFlag inputText s =
      { env.singleRun inputText (sanitizeHistory s.history) with
        metadata := some (dictInsert (dictInsert (dictInsert
            ((env.singleRun inputText (sanitizeHistory s.history)).metadata.getD [])
            "selector_decision"
            (.obj
              [ ("mode", .str (env.selectMode inputText (sanitizeHistory s.history)).mode)
              , ("reason", .str (env.selectMode inputText (sanitizeHistory s.history)).reason)]))
            "stage_transitions"
            (.arr (([ ⟨"start", "selector", 0, "completed", none⟩
                    , ⟨"selector", "single_workflow", 0, "delegated",
                        some (env.selectMode inputText (sanitizeHistory s.history)).reason⟩ ]
                : List StageTransition).map transitionToJson)))
            "delegated_to" (.str "single_workflow")) } := by
  simp only [planRun, hsel, if_true, List.singleton_append]

/-- **C5.** When the Selector chooses `single`, the Plan workflow
delegates to the Single workflow and terminates: the returned result *is*
the Single workflow's result for the same input (output text verbatim,
next history, review round and review result all preserved) with only its
metadata annotated by the selector's decision, the two delegation
transitions and the `delegated_to` tag — and the result does not depend on
the planner, developer, reviewer or snapshot collaborators, none of which
is invoked. -/
theorem planRun_single_delegation (env : PlanAgents) (maxRounds : Nat) (artifactsFlag : Bool)
    (inputText : String) (s : BotSession)
    (hsel : (env.selectMode inputText (sanitizeHistory s.history)).mode = "single") :
    ((planRun env maxRounds artifactsFlag inputText s).output_text =
        (env.singleRun inputText (sanitizeHistory s.history)).output_text ∧
      (planRun env maxRounds artifactsFlag inputText s).next_history =
        (env.singleRun inputText (sanitizeHistory s.history)).next_history ∧
      (planRun env maxRounds artifactsFlag inputText s).review_round =
        (env.singleRun inputText (sanitizeHistory s.history)).review_round ∧
      (planRun env maxRounds artifactsFlag inputText s).review_result =
        (env.singleRun inputText (sanitizeHistory s.history)).review_result ∧
      (planRun env maxRounds artifactsFlag inputText s).metadata =
        some (dictInsert (dictInsert (dictInsert
            ((env.singleRun inputText (sanitizeHistory s.history)).metadata.getD [])
            "selector_decision"
            (.obj
              [ ("mode", .str (env.selectMode inputText (sanitizeHistory s.history)).mode)
              , ("reason", .str (env.selectMode inputText (sanitizeHistory s.history)).reason)]))
            "stage_transitions"
            (.arr (([ ⟨"start", "selector", 0, "completed", none⟩
                    , ⟨"selector", "single_workflow", 0, "delegated",
                        some (env.selectMode inputText (sanitizeHistory s.history)).reason⟩ ]
                : List StageTransition).map transitionToJson)))
            "delegated_to" (.str "single_workflow"))) ∧
    (∀ env' : PlanAgents, env'.selectMode = env.selectMode → env'.singleRun = env.singleRun →
        planRun env' maxRounds artifactsFlag inputText s =
          planRun env maxRounds artifactsFlag inputText s) := by
  constructor
  · rw [planRun_delegate_form env maxRounds artifactsFlag inputText s hsel]
    exact ⟨rfl, rfl, rfl, rfl, rfl⟩
  · intro env' h1 h2
    rw [planRun_delegate_form env maxRounds artifactsFlag inputText s hsel,
      planRun_delegate_form env' maxRounds artifactsFlag inputText s (by rw [h1]; exact hsel),
      h1, h2]

/-- Witness for `planRun_single_delegation` at a concrete environment
whose selector answers `single`. -/
theorem planRun_single_delegation_witness :
    (PlanAgents.selectMode
        ⟨fun _ _ => ⟨"single", "simple request"⟩, fun _ _ => "plan-out"
        , fun _ _ _ _ => "dev-out", fun _ _ _ _ _ => ⟨"approved", "ok"⟩
        , fun input _ => { output_text := "single:" ++ input, review_round := some 0
                         , review_result := some "approved" }
        , fun _ => []⟩
        "quick request"
        (sanitizeHistory ([] : List Json))).mode = "single" ∧
    (planRun
        ⟨fun _ _ => ⟨"single", "simple request"⟩, fun _ _ => "plan-out"
        , fun _ _ _ _ => "dev-out", fun _ _ _ _ _ => ⟨"approved", "ok"⟩
        , fun input _ => { output_text := "single:" ++ input, review_round := some 0
                         , review_result := some "approved" }
        , fun _ => []⟩
        3 true "quick request"
        { session_id := "tg:1:2", chat_id := "1", user_id := "2"
        , updated_at := "t0" }).output_text = "single:quick request" := by
  refine ⟨rfl, ?_⟩
  have h := (planRun_single_delegation
      ⟨fun _ _ => ⟨"single", "simple request"⟩, fun _ _ => "plan-out"
      , fun _ _ _ _ => "dev-out", fun _ _ _ _ _ => ⟨"approved", "ok"⟩
      , fun input _ => { output_text := "single:" ++ input, review_round := some 0
                       , review_result := some "approved" }
      , fun _ => []⟩
      3 true "quick request"
      { session_id := "tg:1:2", chat_id := "1", user_id := "2"
      , updated_at := "t0" } rfl).1.1
  rw [h]
  rfl

/-! ## C2 — exhausting the review loop -/

/-- When every reviewer decision is `needs_changes`, the review loop runs
all its remaining rounds and ends with `review_result = "needs_changes"`,
`review_round` equal to the last round index, and a `needs_changes` last
decision. -/
theorem planLoop_all_needs_changes (env : PlanAgents) (artifactsFlag : Bool)
    (execInput : String) (hist : List Json)
    (hrev : ∀ a b c d e, (env.review a b c d e).result = "needs_changes") :
    ∀ (remaining i : Nat) (st : LoopState), 1 ≤ remaining →
      (planLoop env artifactsFlag execInput hist i remaining st).reviewResult =
          "needs_changes" ∧
      (planLoop env artifactsFlag execInput hist i remaining st).reviewRound =
          i + remaining - 1 ∧
      (planLoop env artifactsFlag execInput hist i remaining st).lastDecision.result =
          "needs_changes" := by
  intro remaining
  induction remaining with
  | zero => intro i st h; omega
  | succ r ih =>
      intro i st _
      rw [planLoop]
      simp only [hrev]
      rw [if_neg (by decide : ¬("needs_changes" = "approved"))]
      match r with
      | 0 =>
          refine ⟨rfl, ?_, rfl⟩
          show (i : Nat) = i + (0 + 1) - 1
          omega
      | r' + 1 =>
          obtain ⟨h1, h2, h3⟩ := ih (i + 1) _ (by omega)
          refine ⟨h1, ?_, h3⟩
          rw [h2]
          omega

/-- The post-loop tail maps a `needs_changes` loop state to a
`needs_changes` terminal result carrying the loop's final round. -/
theorem planFinish_needs_changes (maxRounds : Nat) (sel : SelectorDecision)
    (plannerOutput clippedPlan : String) (hist : List Json) (inputText : String)
    (st : LoopState) (h1 : st.reviewResult = "needs_changes")
    (h3 : st.lastDecision.result = "needs_changes") :
    (planFinish maxRounds sel plannerOutput clippedPlan hist inputText st).review_round =
        some (st.reviewRound : Int) ∧
    (planFinish maxRounds sel plannerOutput clippedPlan hist inputText st).review_result =
        some "needs_changes" := by
  simp only [planFinish, h1]
  rw [if_pos (by exact ⟨by decide, by decide⟩)]
  simp only [h3]
  rw [if_neg (by simp)]
  exact ⟨trivial, rfl⟩

/-- **C2 counterexample.** With `maxRounds = 3` and a reviewer answering
`needs_changes` in every round (spec Scenario B), the Plan workflow's
terminal result is `review_result = "needs_changes"` with
`review_round = 3` — the string `"max_rounds_reached"` is never assigned
anywhere in `plan_agent_workflow.py`'s `run`, so the claimed terminal
state `max_rounds_reached` is wrong (the repository's own test
`test_plan_workflow_stops_at_max_rounds` asserts `needs_changes`). -/
theorem planRun_exhaustion_counterexample :
    (planRun
        ⟨fun _ _ => ⟨"plan", "complex"⟩, fun _ _ => "the plan"
        , fun _ _ _ _ => "draft", fun _ _ _ _ _ => ⟨"needs_changes", "fix it"⟩
        , fun _ _ => { output_text := "unused" }, fun _ => []⟩
        3 false "request"
        { session_id := "tg:1:2", chat_id := "1", user_id := "2"
        , updated_at := "t0" }).review_result = some "needs_changes" ∧
    (planRun
        ⟨fun _ _ => ⟨"plan", "complex"⟩, fun _ _ => "the plan"
        , fun _ _ _ _ => "draft", fun _ _ _ _ _ => ⟨"needs_changes", "fix it"⟩
        , fun _ _ => { output_text := "unused" }, fun _ => []⟩
        3 false "request"
        { session_id := "tg:1:2", chat_id := "1", user_id := "2"
        , updated_at := "t0" }).review_round = some 3 ∧
    some "needs_changes" ≠ some "max_rounds_reached" := by
  refine ⟨rfl, rfl, fun h => ?_⟩
  simp at h

/-- **C2 (amended).** For every Plan workflow run that reaches the plan
path (the Selector did not choose `single`) in which the Reviewer returns
`needs_changes` in every round, the review loop terminates after exactly
`maxReviewRounds` rounds and the workflow's terminal result is
`review_result = "needs_changes"` (not `max_rounds_reached`) with
`review_round = maxReviewRounds`; no error is raised (the embedding is a
total function). -/
theorem planRun_exhaustion (env : PlanAgents) (maxRounds : Nat) (artifactsFlag : Bool)
    (inputText : String) (s : BotSession)
    (hsel : (env.selectMode inputText (sanitizeHistory s.history)).mode ≠ "single")
    (hrev : ∀ a b c d e, (env.review a b c d e).result = "needs_changes")
    (hmax : 1 ≤ maxRounds) :
    (planRun env maxRounds artifactsFlag inputText s).review_round =
        some (maxRounds : Int) ∧
    (planRun env maxRounds artifactsFlag inputText s).review_result =
        some "needs_changes" := by
  obtain ⟨h1, h2, h3⟩ := planLoop_all_needs_changes env artifactsFlag
    (composeExecutionInput inputText
      (clipPlannerOutput (env.plan inputText (sanitizeHistory s.history))))
    (sanitizeHistory s.history) hrev maxRounds 1
    { snap := 0, feedback := none, candidate := ""
    , lastDecision := ⟨"approved", ""⟩, rounds := []
    , transitions :=
        [⟨"start", "selector", 0, "completed", none⟩] ++
          [⟨"selector", "planner", 0, "completed",
            some (env.selectMode inputText (sanitizeHistory s.history)).reason⟩]
    , reviewResult := "approved", reviewRound := 0 } hmax
  have hround : (1 : Nat) + maxRounds - 1 = maxRounds := by omega
  rw [hround] at h2
  obtain ⟨hfin1, hfin2⟩ := planFinish_needs_changes maxRounds
    (env.selectMode inputText (sanitizeHistory s.history))
    (env.plan inputText (sanitizeHistory s.history))
    (clipPlannerOutput (env.plan inputText (sanitizeHistory s.history)))
    (sanitizeHistory s.history) inputText _ h1 h3
  rw [h2] at hfin1
  simp only [planRun, if_neg hsel]
  exact ⟨hfin1, hfin2⟩

/-- Witness for `planRun_exhaustion` at the Scenario-B environment. -/
theorem planRun_exhaustion_witness :
    (PlanAgents.selectMode
        ⟨fun _ _ => ⟨"plan", "complex"⟩, fun _ _ => "the plan"
        , fun _ _ _ _ => "draft", fun _ _ _ _ _ => ⟨"needs_changes", "fix it"⟩
        , fun _ _ => { output_text := "unused" }, fun _ => []⟩
        "request"
        (sanitizeHistory ([] : List Json))).mode ≠ "single" ∧
    (1 : Nat) ≤ 3 ∧
    (planRun
        ⟨fun _ _ => ⟨"plan", "complex"⟩, fun _ _ => "the plan"
        , fun _ _ _ _ => "draft", fun _ _ _ _ _ => ⟨"needs_changes", "fix it"⟩
        , fun _ _ => { output_text := "unused" }, fun _ => []⟩
        3 false "request"
        { session_id := "tg:1:2", chat_id := "1", user_id := "2"
        , updated_at := "t1" }).review_round = some 3 := by
  refine ⟨by simp, by omega, ?_⟩
  exact (planRun_exhaustion
    ⟨fun _ _ => ⟨"plan", "complex"⟩, fun _ _ => "the plan"
    , fun _ _ _ _ => "draft", fun _ _ _ _ _ => ⟨"needs_changes", "fix it"⟩
    , fun _ _ => { output_text := "unused" }, fun _ => []⟩
    3 false "request"
    { session_id := "tg:1:2", chat_id := "1", user_id := "2"
    , updated_at := "t1" }
    (by simp) (fun _ _ _ _ _ => rfl) (by omega)).1

/-! ## C8 — the history cap and the echo-free guarantee -/

/-- A history turn as `_sanitize_history` emits it: a rebuilt
`user`/`assistant` dict with non-blank content not recognized as an echo. -/
def cleanTurn (turn : Json) : Prop :=
  ∃ role content, turn = histTurn role content ∧
    (role = "user" ∨ role = "assistant") ∧ content ≠ "" ∧
    looksLikePromptEcho content = false

theorem sanitize_foldl_clean (history : List Json) : ∀ acc : List Json,
    (∀ turn ∈ acc, cleanTurn turn) →
    ∀ turn ∈ List.foldl sanitizeStep acc history, cleanTurn turn := by
  induction history with
  | nil => intro acc hacc; exact hacc
  | cons item rest ih =>
      intro acc hacc
      apply ih
      intro turn hturn
      revert hturn
      show turn ∈ sanitizeStep acc item → cleanTurn turn
      match item with
      | .null | .bool _ | .num _ | .str _ | .arr _ => exact fun h => hacc turn h
      | .obj fields =>
          simp only [sanitizeStep]
          split
          · split
            · exact fun h => hacc turn h
            · split
              · exact fun h => hacc turn h
              · intro h
                rcases List.mem_append.mp h with h | h
                · exact hacc turn h
                · refine ⟨pyStrip (pyStr (dictGetD "role" (.str "") fields)),
                    pyStrip (pyStr (dictGetD "content" (.str "") fields)),
                    by simpa using h, by assumption, by assumption, ?_⟩
                  simp_all
          · exact fun h => hacc turn h

/-- The sanitized history satisfies the invariant the source enforces:
every turn is clean. -/
theorem sanitizeHistory_clean (history : List Json) :
    ∀ turn ∈ sanitizeHistory history, cleanTurn turn := by
  intro turn hturn
  have : turn ∈ List.foldl sanitizeStep [] history := by
    revert hturn
    simp only [sanitizeHistory]
    split
    · exact fun h => List.mem_of_mem_drop h
    · exact fun h => h
  exact sanitize_foldl_clean history [] (by simp) turn this

/-- The sanitized history never exceeds the 20-turn cap. -/
theorem sanitizeHistory_length_le (history : List Json) :
    (sanitizeHistory history).length ≤ maxHistoryItems := by
  simp only [sanitizeHistory]
  split
  · simp only [List.length_drop]
    omega
  · omega

/-- The next history `planFinish` stores: the sanitized prior history plus
the current user turn and the assistant's final output. -/
theorem planFinish_next_history (maxRounds : Nat) (sel : SelectorDecision)
    (plannerOutput clippedPlan : String) (hist : List Json) (inputText : String)
    (st : LoopState) :
    ∃ assistantOut : String,
      (planFinish maxRounds sel plannerOutput clippedPlan hist inputText st).next_history =
        some (hist ++ [histTurn "user" inputText, histTurn "assistant" assistantOut]) :=
  ⟨_, rfl⟩

/-- **C8 counterexample.** The two turns appended after sanitization are
not themselves checked: one plan-path run on an input whose text matches
the prompt-echo fingerprints leaves, after the orchestrator merges the
result (`core/orchestrator.py` line 262), a persisted session history
containing a turn recognized as an echoed system prompt — refuting "never
contains a turn recognized as an echoed system prompt" for the stored
history (the cap can likewise reach 20 + 2 = 22 stored turns). -/
theorem planRun_stores_echo_turn :
    looksLikePromptEcho
        "User request: x Review round: 1 Reviewer feedback to apply: y" = true ∧
    (applyRunResult
        { session_id := "tg:1:2", chat_id := "1", user_id := "2", updated_at := "t0" }
        (planRun
          ⟨fun _ _ => ⟨"plan", "r"⟩, fun _ _ => "p", fun _ _ _ _ => "done"
          , fun _ _ _ _ _ => ⟨"approved", "ok"⟩, fun _ _ => { output_text := "u" }
          , fun _ => []⟩
          3 false "User request: x Review round: 1 Reviewer feedback to apply: y"
          { session_id := "tg:1:2", chat_id := "1", user_id := "2", updated_at := "t0" })
        5).history =
      [ histTurn "user" "User request: x Review round: 1 Reviewer feedback to apply: y"
      , histTurn "assistant" "done" ] :=
  ⟨by decide, rfl⟩

/-- **C8 (amended).** For every plan-path run, the stored next history is
exactly the sanitized prior history — which is capped at 20 turns, oldest
dropped first, and contains no turn recognized as an echoed system
prompt — followed by the two turns of the current exchange, which are
appended unchecked; so the history every run's agents see is ≤ 20
echo-free turns, while the persisted history may reach 22 turns and its
final user turn may itself match the echo fingerprints until the next
run's sanitization removes it. -/
theorem planRun_history_cap_and_echo (env : PlanAgents) (maxRounds : Nat)
    (artifactsFlag : Bool) (inputText : String) (s : BotSession)
    (hsel : (env.selectMode inputText (sanitizeHistory s.history)).mode ≠ "single") :
    (∃ assistantOut : String,
        (planRun env maxRounds artifactsFlag inputText s).next_history =
          some (sanitizeHistory s.history ++
            [histTurn "user" inputText, histTurn "assistant" assistantOut])) ∧
    (sanitizeHistory s.history).length ≤ maxHistoryItems ∧
    (∀ turn ∈ sanitizeHistory s.history, cleanTurn turn) := by
  refine ⟨?_, sanitizeHistory_length_le s.history, sanitizeHistory_clean s.history⟩
  simp only [planRun, if_neg hsel]
  exact planFinish_next_history _ _ _ _ _ _ _

/-- Witness for `planRun_history_cap_and_echo` at a concrete plan-path
environment. -/
theorem planRun_history_cap_and_echo_witness :
    (PlanAgents.selectMode
        ⟨fun _ _ => ⟨"plan", "r"⟩, fun _ _ => "p", fun _ _ _ _ => "done"
        , fun _ _ _ _ _ => ⟨"approved", "ok"⟩, fun _ _ => { output_text := "u" }
        , fun _ => []⟩
        "hello" (sanitizeHistory ([histTurn "user" "earlier"] : List Json))).mode ≠ "single" ∧
    (sanitizeHistory ([histTurn "user" "earlier"] : List Json)).length ≤ maxHistoryItems := by
  refine ⟨by simp, ?_⟩
  exact (planRun_history_cap_and_echo
    ⟨fun _ _ => ⟨"plan", "r"⟩, fun _ _ => "p", fun _ _ _ _ => "done"
    , fun _ _ _ _ _ => ⟨"approved", "ok"⟩, fun _ _ => { output_text := "u" }
    , fun _ => []⟩
    3 false "hello"
    { session_id := "tg:1:2", chat_id := "1", user_id := "2"
    , history := [histTurn "user" "earlier"], updated_at := "t0" }
    (by simp)).2.1

end CodexOrchestrator
